import Mathlib

/-!
Shallow embedding of the Paddle `Uniform` distribution
(python/paddle/distribution/uniform.py) and proofs of its specified
properties.

The embedding has two layers:

* a computable metadata layer modelling the constructor (argument type
  checking, dtype resolution, conversion of raw inputs to tensors) and the
  shape logic of `sample` (static and dynamic batch-shape branches), with
  tensor shapes as `List Int` where `-1` marks a dynamic dimension, exactly
  as in the source;

* a scalar layer over `ℝ` (with `EReal` for logarithms, so that the float
  value `-inf` produced by `log 0` is representable) modelling the
  elementwise arithmetic performed by `probs`, `log_prob`, `entropy` and
  the rescaling step of `sample`.  Broadcasting is the external tensor
  engine's job (out of scope in the spec), so elementwise claims are
  settled pointwise.
-/

namespace PaddleUniform

/-- Element dtypes relevant to the module.  `convert_dtype` in the source
turns a framework dtype into its string name; here dtype values are
compared directly, which is equivalent. -/
inductive DType
  | float16
  | float32
  | float64
  | int32
  | int64
  deriving DecidableEq, Repr

/-- Python-level values that can be passed as `low` / `high` (and as
`shape` / `seed` to `sample`).  `tensorV` models the framework tensor
kinds (`Variable`, `paddle.pir.Value`, eager `Tensor`), carrying element
dtype and static shape (`-1` = dynamic dimension).  `ndarray` models a
numpy buffer.  `unsupported` stands for any representation outside the
tuple accepted by `check_type`. -/
inductive PyValue
  | pyint (n : Int)
  | pyfloat (q : Rat)
  | pylist (elems : List Rat)
  | ndarray (dt : DType) (shape : List Int)
  | tensorV (dt : DType) (shape : List Int)
  | unsupported
  deriving DecidableEq, Repr

/-- Errors surfaced by the embedded operations.  `invalidArgumentType`
models the error raised by `check_type`; `conversionError` models the
distinct failure surfacing from the tensor-conversion step on the
unchecked path. -/
inductive UniformErr
  | invalidArgumentType
  | conversionError
  deriving DecidableEq, Repr

/-- State of a constructed `Uniform` object: element dtypes and static
shapes of `self.low` / `self.high`, the resolved `self.dtype`, the
`all_arg_is_float` flag, and the `batch_shape` handed to the base class
(`super().__init__(self.low.shape)`).  The source also stores a
`batch_size_unknown` flag that is initialised to `False` and never
updated, and a cosmetic `name`; both are omitted. -/
structure UniformModel where
  low_dtype : DType
  high_dtype : DType
  low_shape : List Int
  high_shape : List Int
  dtype : DType
  all_arg_is_float : Bool
  batch_shape : List Int
  deriving DecidableEq, Repr

/-- Modelled from the spec: `check_type` (paddle.base.data_feeder, not
under src/) accepts `int`, `float`, `np.ndarray`, `Variable`,
`paddle.pir.Value`, `list`, `tuple` for `low` / `high`; every `PyValue`
constructor except `unsupported` falls in that tuple. -/
def checkTypeOk : PyValue → Bool
  | .unsupported => false
  | _ => true

/-- Modelled from the spec: `_validate_args` (distribution.py, not under
src/) recognises arguments that are already live tensors / graph values. -/
def isTensor : PyValue → Bool
  | .tensorV _ _ => true
  | _ => false

/-- Whether a value is a Python float scalar. -/
def isFloat : PyValue → Bool
  | .pyfloat _ => true
  | _ => false

/-- The source coerces Python int scalars to floats before any further
dispatch: `if isinstance(low, int): low = float(low)`. -/
def coerceInt : PyValue → PyValue
  | .pyint n => .pyfloat n
  | v => v

/-- Test from the source: `isinstance(x, np.ndarray) and str(x.dtype) in
['float32', 'float64']`. -/
def isFloatNd : PyValue → Bool
  | .ndarray .float32 _ => true
  | .ndarray .float64 _ => true
  | _ => false

/-- Element dtype of a numpy buffer (meaningful when `isFloatNd`). -/
def ndDtype : PyValue → DType
  | .ndarray dt _ => dt
  | _ => .float32

/-- Element dtype of a tensor value (meaningful when `isTensor`). -/
def tensorDtype : PyValue → DType
  | .tensorV dt _ => dt
  | _ => .float32

/-- Static shape of a tensor value (meaningful when `isTensor`). -/
def tensorShape : PyValue → List Int
  | .tensorV _ s => s
  | _ => []

/-- Modelled from the spec: the tensor shape produced by the broadcast-safe
conversion in `_to_tensor` (distribution.py, not under src/): scalars
become shape-`[1]` tensors, flat sequences become 1-d tensors, buffers
keep their shape. -/
def rawShape : PyValue → List Int
  | .pyint _ => [1]
  | .pyfloat _ => [1]
  | .pylist qs => [(qs.length : Int)]
  | .ndarray _ s => s
  | .tensorV _ s => s
  | .unsupported => []

/-- Broadcast of one dimension pair, per the standard elementwise
broadcasting rules the spec declares for the external tensor engine; `-1`
(dynamic) is absorbing when neither side is `1`. -/
def bdim (a b : Int) : Int :=
  if a = 1 then b
  else if b = 1 then a
  else if a = -1 ∨ b = -1 then -1
  else a

/-- Broadcast of two reversed shape lists (aligned from the trailing
dimension). -/
def bcastRev : List Int → List Int → List Int
  | [], ys => ys
  | xs, [] => xs
  | x :: xs, y :: ys => bdim x y :: bcastRev xs ys

/-- Modelled from the spec: the broadcast shape of two operands, aligning
from the trailing dimension and expanding size-1 dimensions (glossary,
"Broadcast shape").  This is the shape of `low + high`. -/
def broadcastShapes (a b : List Int) : List Int :=
  (bcastRev a.reverse b.reverse).reverse

/-- The dtype resolution of the raw-input path, as in the source: default
`'float32'`; a numpy buffer with element type `float32` / `float64`
overrides it, `low` checked first, then `high`. -/
def resolvedRawDtype (low high : PyValue) : DType :=
  if isFloatNd low then ndDtype low
  else if isFloatNd high then ndDtype high
  else DType.float32

/-- Shallow embedding of `Uniform.__init__`.  In checked (non-dynamic)
mode, `check_type` rejects unsupported representations of `low` / `high`.
Int scalars are coerced to floats.  If both arguments are already tensors
they are accepted as-is and `self.dtype` is resolved from `low`'s element
type.  Otherwise the raw-input path resolves the dtype
(`resolvedRawDtype`), converts both inputs to tensors — modelled from the
spec: `_to_tensor` (not under src/) produces `float32` tensors broadcast
to a common shape — and casts both to the resolved dtype when the
converted element type differs from it.  `batch_shape` is
`self.low.shape`. -/
def mkUniform (in_dynamic_mode : Bool) (low high : PyValue) :
    Except UniformErr UniformModel :=
  if !in_dynamic_mode && (!(checkTypeOk low) || !(checkTypeOk high)) then
    .error .invalidArgumentType
  else
    let low := coerceInt low
    let high := coerceInt high
    if isTensor low && isTensor high then
      .ok { low_dtype := tensorDtype low
            high_dtype := tensorDtype high
            low_shape := tensorShape low
            high_shape := tensorShape high
            dtype := tensorDtype low
            all_arg_is_float := false
            batch_shape := tensorShape low }
    else
      let all_arg_is_float := isFloat low && isFloat high
      let dt := resolvedRawDtype low high
      if checkTypeOk low && checkTypeOk high then
        let s := broadcastShapes (rawShape low) (rawShape high)
        if dt ≠ DType.float32 then
          .ok { low_dtype := dt
                high_dtype := dt
                low_shape := s
                high_shape := s
                dtype := dt
                all_arg_is_float := all_arg_is_float
                batch_shape := s }
        else
          .ok { low_dtype := DType.float32
                high_dtype := DType.float32
                low_shape := s
                high_shape := s
                dtype := dt
                all_arg_is_float := all_arg_is_float
                batch_shape := s }
      else
        .error .conversionError

/-- Projection of a construction result onto `(self.dtype,
self.low.dtype, self.high.dtype)`. -/
def dtypeTriple : Except UniformErr UniformModel → Option (DType × DType × DType)
  | .ok m => some (m.dtype, m.low_dtype, m.high_dtype)
  | .error _ => none

/-- Number of elements of a shape (product of the dimensions). -/
def numel (s : List Int) : Int := s.foldr (fun a b => a * b) 1

/-- Assignment `fill_shape[0] = v` from the dynamic sampling branch. -/
def setHead (s : List Int) (v : Int) : List Int :=
  match s with
  | [] => []
  | _ :: xs => v :: xs

/-- Runtime shape produced by `paddle.reshape(src, target)` when `target`
may contain a `-1` entry: the `-1` is inferred from the number of elements
of `src` divided by the product of the explicit entries. -/
def resolveReshape (src target : List Int) : List Int :=
  let n := numel src
  let p := numel (target.filter (fun d => d != -1))
  target.map (fun d => if d = -1 then n / p else d)

/-- Shallow embedding of the shape behaviour of `Uniform.sample`.
`batch_shape` is recomputed as the shape of `self.low + self.high`.  If it
contains a dynamic dimension the code builds `fill_shape = batch_shape ++
shape` with entry `0` overwritten by `rt0`, the runtime value of
`paddle.shape(self.low + self.high)[0]`, fills a zero tensor of that
shape, draws a matching uniform tensor, and reshapes both to
`shape ++ batch_shape`; the result has the reshaped runtime shape.
Otherwise the result has shape `shape ++ batch_shape`, reshaped down to
`shape` when `all_arg_is_float` is set. -/
def sampleShapeResult (m : UniformModel) (shape : List Int) (rt0 : Int) :
    List Int :=
  let batch_shape := broadcastShapes m.low_shape m.high_shape
  if (-1 : Int) ∈ batch_shape then
    let output_shape := shape ++ batch_shape
    let fill_shape := setHead (batch_shape ++ shape) rt0
    resolveReshape fill_shape output_shape
  else
    let output_shape := shape ++ batch_shape
    if m.all_arg_is_float then shape else output_shape

/-- Whether a value is a Python list. -/
def isPyList : PyValue → Bool
  | .pylist _ => true
  | _ => false

/-- Whether a value is a Python int. -/
def isPyInt : PyValue → Bool
  | .pyint _ => true
  | _ => false

/-- Dimension list carried by a `shape` argument. -/
def listArg : PyValue → List Int
  | .pylist qs => qs.map (fun q => Int.floor q)
  | _ => []

/-- Shallow embedding of the argument checking of `Uniform.sample`: in
checked (non-dynamic) mode `check_type` requires `shape` to be a `list`
and `seed` an `int`; then the shape logic of `sampleShapeResult` runs. -/
def sampleChecked (in_dynamic_mode : Bool) (m : UniformModel)
    (shapeArg seedArg : PyValue) (rt0 : Int) : Except UniformErr (List Int) :=
  if !in_dynamic_mode && (!(isPyList shapeArg) || !(isPyInt seedArg)) then
    .error .invalidArgumentType
  else
    .ok (sampleShapeResult m (listArg shapeArg) rt0)

/-- Modelled from the spec: dtype of an elementwise binary result in the
external tensor engine; equal operand dtypes are preserved, otherwise the
wider float wins. -/
def promoteDtype (a b : DType) : DType :=
  if a = b then a
  else if a = DType.float64 ∨ b = DType.float64 then DType.float64
  else DType.float32

/-- Shape of `entropy()`: the code returns `paddle.log(self.high -
self.low)`, whose shape is the broadcast of the operand shapes. -/
def entropyShape (m : UniformModel) : List Int :=
  broadcastShapes m.high_shape m.low_shape

/-- Dtype of `entropy()`: the dtype of `self.high - self.low`. -/
def entropyDtype (m : UniformModel) : DType :=
  promoteDtype m.high_dtype m.low_dtype

/-- Elementwise cast of the boolean tensor `a < b` to the working float
dtype, as `paddle.cast(lb_bool, value.dtype)` does: `1` when true, `0`
when false. -/
noncomputable def castLt (a b : ℝ) : ℝ := if a < b then 1 else 0

/-- Elementwise `paddle.log` with values in `EReal`, so `log 0 = -inf` as
for the float primitive; positive arguments give the real logarithm. -/
noncomputable def elog (x : ℝ) : EReal :=
  if x ≤ 0 then (⊥ : EReal) else ((Real.log x : ℝ) : EReal)

/-- The spec's indicator: `inside = (low < value) AND (value < high)` as a
0/1 value, written from the spec's words to compare against the code's
product of two casts. -/
noncomputable def specIndicator (low high value : ℝ) : ℝ :=
  if low < value ∧ value < high then 1 else 0

/-- Elementwise embedding of `Uniform.probs`: `(lb * ub) / (high - low)`
with `lb = cast(low < value)`, `ub = cast(value < high)`. -/
noncomputable def probs (low high value : ℝ) : ℝ :=
  castLt low value * castLt value high / (high - low)

/-- Elementwise embedding of `Uniform.log_prob`: `log(lb * ub) -
log(high - low)`. -/
noncomputable def log_prob (low high value : ℝ) : EReal :=
  elog (castLt low value * castLt value high) - elog (high - low)

/-- Elementwise embedding of `Uniform.entropy`: `log(high - low)`.  It
takes no `value` argument: the code has no branch on any sampled or input
value. -/
noncomputable def entropy (low high : ℝ) : EReal := elog (high - low)

/-- Elementwise embedding of the static-batch-shape rescaling in
`Uniform.sample`: the uniform(0,1) draw `u` is multiplied by
`zeros(output_shape) + (high - low)` and then `low` is added. -/
noncomputable def sample_static_elem (u low high : ℝ) : ℝ :=
  u * ((0 : ℝ) + (high - low)) + low

/-- Elementwise embedding of the dynamic-batch-shape rescaling in
`Uniform.sample`: the reshaped draw `u` is multiplied by
`zero_tmp_reshape + high - low` (with `z` the zero-tensor element) and
then `low` is added. -/
noncomputable def sample_dynamic_elem (u low high z : ℝ) : ℝ :=
  u * (z + high - low) + low

/-! Helper lemmas. -/

theorem castLt_of_lt {a b : ℝ} (h : a < b) : castLt a b = 1 := by
  simp [castLt, h]

theorem castLt_of_not_lt {a b : ℝ} (h : ¬ a < b) : castLt a b = 0 := by
  simp [castLt, h]

theorem castLt_mul_eq (low high value : ℝ) :
    castLt low value * castLt value high = specIndicator low high value := by
  by_cases h1 : low < value <;> by_cases h2 : value < high <;>
    simp [castLt, specIndicator, h1, h2]

theorem elog_zero : elog 0 = ⊥ := by
  simp [elog]

theorem elog_of_pos {x : ℝ} (h : 0 < x) :
    elog x = ((Real.log x : ℝ) : EReal) := by
  rw [elog, if_neg (not_le.mpr h)]

theorem elog_one : elog 1 = (0 : EReal) := by
  rw [elog_of_pos one_pos, Real.log_one, EReal.coe_zero]

theorem probs_pos_elim {low high value : ℝ} (h : 0 < probs low high value) :
    low < value ∧ value < high ∧ 0 < high - low := by
  by_cases h1 : low < value
  · by_cases h2 : value < high
    · refine ⟨h1, h2, ?_⟩
      rw [probs, castLt_of_lt h1, castLt_of_lt h2] at h
      simp only [one_mul, div_eq_mul_inv] at h
      exact inv_pos.mp h
    · exfalso
      rw [probs, castLt_of_not_lt h2, mul_zero, zero_div] at h
      exact lt_irrefl 0 h
  · exfalso
    rw [probs, castLt_of_not_lt h1, zero_mul, zero_div] at h
    exact lt_irrefl 0 h

theorem bdim_self (x : Int) : bdim x x = x := by
  rw [bdim]
  split_ifs with h1 h2
  · rfl
  · rcases h2 with h | h <;> exact h.symm
  · rfl

theorem bcastRev_self (l : List Int) : bcastRev l l = l := by
  induction l with
  | nil => rfl
  | cons x xs ih => rw [bcastRev, bdim_self, ih]

theorem broadcastShapes_self (s : List Int) : broadcastShapes s s = s := by
  rw [broadcastShapes, bcastRev_self, List.reverse_reverse]

theorem numel_append (xs ys : List Int) :
    numel (xs ++ ys) = numel xs * numel ys := by
  induction xs with
  | nil => simp [numel]
  | cons x xs ih =>
      simp only [numel, List.cons_append, List.foldr_cons] at ih ⊢
      rw [ih, mul_assoc]

theorem numel_pos {l : List Int} (h : ∀ d ∈ l, 0 < d) : 0 < numel l := by
  induction l with
  | nil => exact one_pos
  | cons x xs ih =>
      have hx : 0 < x := h x (List.mem_cons_self x xs)
      have hxs : 0 < numel xs := ih fun d hd => h d (List.mem_cons_of_mem x hd)
      simpa [numel] using mul_pos hx hxs

/-! Claim theorems. -/

/-- C1: for every value, `probs` returns the strict-inequality 0/1
indicator of `low < value AND value < high` divided by `high - low`; in
particular a value equal to `low` or equal to `high` yields density 0. -/
theorem probs_eq_indicator_div (low high value : ℝ) :
    probs low high value = specIndicator low high value / (high - low)
      ∧ probs low high low = 0
      ∧ probs low high high = 0 := by
  refine ⟨?_, ?_, ?_⟩
  · rw [probs, castLt_mul_eq]
  · rw [probs, castLt_of_not_lt (lt_irrefl low), zero_mul, zero_div]
  · rw [probs, castLt_of_not_lt (lt_irrefl high), mul_zero, zero_div]

/-- C2: `log_prob` returns `log(inside) - log(high - low)` with `inside`
the strict-inequality 0/1 indicator, and every value outside the open
interval `(low, high)` — boundary points included — gets `-inf`. -/
theorem log_prob_eq_log_indicator_sub (low high value : ℝ) :
    log_prob low high value
        = elog (specIndicator low high value) - elog (high - low)
      ∧ (value ≤ low ∨ high ≤ value → log_prob low high value = ⊥) := by
  constructor
  · rw [log_prob, castLt_mul_eq]
  · intro h
    have hz : castLt low value * castLt value high = 0 := by
      rcases h with h | h
      · rw [castLt_of_not_lt (not_lt.mpr h), zero_mul]
      · rw [castLt_of_not_lt (not_lt.mpr h), mul_zero]
    rw [log_prob, hz, elog_zero, EReal.bot_sub]

/-- C2 witness: the value 2 lies outside the support of `Uniform(0, 1)`,
and its log-density is `-inf`. -/
theorem log_prob_eq_log_indicator_sub_witness : log_prob 0 1 2 = ⊥ :=
  (log_prob_eq_log_indicator_sub 0 1 2).2 (Or.inr (by norm_num))

/-- C3: `entropy()` is elementwise `log(high - low)` — exactly the real
logarithm whenever `low < high` — with result shape equal to
`batch_shape` and dtype equal to `self.dtype` (the code has no branch on
any sampled or input value: `entropy` takes no value argument). -/
theorem entropy_eq_log_width (low high : ℝ) (m : UniformModel) :
    entropy low high = elog (high - low)
      ∧ (low < high → entropy low high = ((Real.log (high - low) : ℝ) : EReal))
      ∧ (m.high_shape = m.low_shape → m.batch_shape = m.low_shape →
          entropyShape m = m.batch_shape)
      ∧ (m.high_dtype = m.dtype → m.low_dtype = m.dtype →
          entropyDtype m = m.dtype) := by
  refine ⟨rfl, ?_, ?_, ?_⟩
  · intro h
    rw [entropy, elog_of_pos (sub_pos.mpr h)]
  · intro h1 h2
    rw [entropyShape, h1, broadcastShapes_self, h2]
  · intro h1 h2
    rw [entropyDtype, h1, h2, promoteDtype, if_pos rfl]

/-- C3 witness: `Uniform(0, 1)` has entropy `log 1` with shape `[3]` and
dtype `float32` for a batch-`[3]` float32 model. -/
theorem entropy_eq_log_width_witness :
    entropy 0 1 = ((Real.log (1 - 0) : ℝ) : EReal)
      ∧ entropyShape
          ⟨DType.float32, DType.float32, [3], [3], DType.float32, false, [3]⟩
          = [3]
      ∧ entropyDtype
          ⟨DType.float32, DType.float32, [3], [3], DType.float32, false, [3]⟩
          = DType.float32 :=
  ⟨(entropy_eq_log_width 0 1
      ⟨DType.float32, DType.float32, [3], [3], DType.float32, false, [3]⟩).2.1
      (by norm_num),
   (entropy_eq_log_width 0 1
      ⟨DType.float32, DType.float32, [3], [3], DType.float32, false, [3]⟩).2.2.1
      rfl rfl,
   (entropy_eq_log_width 0 1
      ⟨DType.float32, DType.float32, [3], [3], DType.float32, false, [3]⟩).2.2.2
      rfl rfl⟩

/-- C5: on the static path each sample element is `low + u * (high - low)`
for the uniform(0,1) draw `u`, and for `u` in `[0, 1)` (and valid
parameters `low < high`) the element lies in `[low, high)`. -/
theorem sample_static_affine (u low high : ℝ) :
    sample_static_elem u low high = low + u * (high - low)
      ∧ (0 ≤ u → u < 1 → low < high →
          low ≤ sample_static_elem u low high
            ∧ sample_static_elem u low high < high) := by
  constructor
  · rw [sample_static_elem]; ring
  · intro h0 h1 hlh
    rw [sample_static_elem]
    constructor
    · nlinarith [mul_nonneg h0 (sub_nonneg.mpr hlh.le)]
    · nlinarith [mul_pos (sub_pos.mpr h1) (sub_pos.mpr hlh)]

/-- C5 witness: the draw `u = 1/2` for `Uniform(0, 1)` yields a sample in
`[0, 1)`. -/
theorem sample_static_affine_witness :
    (0 : ℝ) ≤ sample_static_elem (1 / 2) 0 1
      ∧ sample_static_elem (1 / 2) 0 1 < 1 :=
  (sample_static_affine (1 / 2) 0 1).2 (by norm_num) (by norm_num) (by norm_num)

/-- C9: wherever `probs` is positive (value strictly inside the support),
`log_prob` equals `log(probs)`, `probs` equals `1 / (high - low)` and
`log_prob` equals `-log(high - low)`. -/
theorem log_prob_eq_log_probs (low high value : ℝ)
    (h : 0 < probs low high value) :
    log_prob low high value = elog (probs low high value)
      ∧ probs low high value = 1 / (high - low)
      ∧ log_prob low high value = ((-Real.log (high - low) : ℝ) : EReal) := by
  obtain ⟨h1, h2, hw⟩ := probs_pos_elim h
  have hprobs : probs low high value = 1 / (high - low) := by
    rw [probs, castLt_of_lt h1, castLt_of_lt h2, one_mul]
  have hlp : log_prob low high value
      = ((-Real.log (high - low) : ℝ) : EReal) := by
    rw [log_prob, castLt_of_lt h1, castLt_of_lt h2, one_mul, elog_one,
      elog_of_pos hw, ← EReal.coe_zero, ← EReal.coe_sub, zero_sub]
  refine ⟨?_, hprobs, hlp⟩
  rw [hlp, hprobs, one_div, elog_of_pos (inv_pos.mpr hw), Real.log_inv]

/-- C9 witness: for `Uniform(0, 1)` at the interior value `1/2`,
`log_prob` agrees with `log(probs)`. -/
theorem log_prob_eq_log_probs_witness :
    log_prob 0 1 (1 / 2) = elog (probs 0 1 (1 / 2)) :=
  (log_prob_eq_log_probs 0 1 (1 / 2)
    (by rw [probs, castLt_of_lt (by norm_num), castLt_of_lt (by norm_num)]
        norm_num)).1

/-! Further helper lemmas for the metadata layer. -/

theorem isTensor_coerceInt (v : PyValue) : isTensor (coerceInt v) = isTensor v := by
  cases v <;> rfl

theorem checkTypeOk_coerceInt (v : PyValue) :
    checkTypeOk (coerceInt v) = checkTypeOk v := by
  cases v <;> rfl

theorem isFloatNd_coerceInt (v : PyValue) :
    isFloatNd (coerceInt v) = isFloatNd v := by
  cases v <;> rfl

theorem ndDtype_coerceInt (v : PyValue) : ndDtype (coerceInt v) = ndDtype v := by
  cases v <;> rfl

theorem resolvedRawDtype_coerceInt (low high : PyValue) :
    resolvedRawDtype (coerceInt low) (coerceInt high) = resolvedRawDtype low high := by
  rw [resolvedRawDtype, resolvedRawDtype, isFloatNd_coerceInt, isFloatNd_coerceInt,
    ndDtype_coerceInt, ndDtype_coerceInt]

theorem filter_ne_neg_one {l : List Int} (h : ∀ d ∈ l, 0 < d) :
    l.filter (fun d => d != -1) = l :=
  List.filter_eq_self.mpr fun a ha => bne_iff_ne.mpr (by have := h a ha; omega)

theorem map_resolve_id {l : List Int} (c : Int) (h : ∀ d ∈ l, 0 < d) :
    l.map (fun d => if d = -1 then c else d) = l := by
  have h2 : l.map (fun d => if d = -1 then c else d) = l.map id :=
    List.map_congr_left fun a ha => by
      have := h a ha
      simp only [id]
      rw [if_neg (by omega)]
  rw [h2, List.map_id]

/-- C4: with a fully resolved batch shape, `sample` returns shape
`shape ++ batch_shape`, except that with `all_arg_is_float` set (both
constructor parameters bare scalars) the result is reshaped down to
`shape`; in particular `Uniform(3.0, 4.0).sample([2])` has shape `[2]`
while `Uniform([0.0], [2.0]).sample([2])` has shape `[2, 1]`. -/
theorem sample_shape_static (m : UniformModel) (shape : List Int) (rt0 : Int)
    (h : (-1 : Int) ∉ broadcastShapes m.low_shape m.high_shape) :
    sampleShapeResult m shape rt0
        = (if m.all_arg_is_float = true then shape
           else shape ++ broadcastShapes m.low_shape m.high_shape)
      ∧ Except.map (fun u => sampleShapeResult u [2] 0)
          (mkUniform true (PyValue.pyfloat 3) (PyValue.pyfloat 4))
          = Except.ok [2]
      ∧ Except.map (fun u => sampleShapeResult u [2] 0)
          (mkUniform true (PyValue.pylist [0]) (PyValue.pylist [2]))
          = Except.ok [2, 1] := by
  refine ⟨?_, rfl, rfl⟩
  simp only [sampleShapeResult]
  rw [if_neg h]

/-- C4 witness: a batch-`[2, 3]` model without the scalar flag samples
with shape `[5] ++ [2, 3]`. -/
theorem sample_shape_static_witness :
    sampleShapeResult
        ⟨DType.float32, DType.float32, [2, 3], [2, 3], DType.float32, false, [2, 3]⟩
        [5] 0
      = [5, 2, 3] :=
  (sample_shape_static
    ⟨DType.float32, DType.float32, [2, 3], [2, 3], DType.float32, false, [2, 3]⟩
    [5] 0 (by decide)).1

/-- C6: on the dynamic-batch path (leading batch dimension `-1`), the
zero-filled tensor has shape `batch_shape ++ shape` with entry 0 replaced
by the runtime size `rt0` of `low + high`, both it and the matching draw
are reshaped to `shape ++ batch_shape`, and the result has exactly that
shape with the unresolved dimension resolved to `rt0`; no scalar-squeeze
is applied (the conclusion does not depend on `all_arg_is_float`).
Elementwise the result is `low + u * (zero_reshaped + high - low)`. -/
theorem sample_shape_dynamic (m : UniformModel) (shape rest : List Int)
    (rt0 : Int)
    (hb : broadcastShapes m.low_shape m.high_shape = -1 :: rest)
    (hrest : ∀ d ∈ rest, 0 < d) (hsh : ∀ d ∈ shape, 0 < d) :
    sampleShapeResult m shape rt0 = shape ++ rt0 :: rest
      ∧ (∀ u low high z : ℝ,
          sample_dynamic_elem u low high z = low + u * (z + high - low)) := by
  refine ⟨?_, fun u low high z => by rw [sample_dynamic_elem]; ring⟩
  simp only [sampleShapeResult, hb]
  rw [if_pos (List.mem_cons_self (-1) rest)]
  have hset : setHead (((-1 : Int) :: rest) ++ shape) rt0 = rt0 :: (rest ++ shape) := rfl
  rw [hset]
  simp only [resolveReshape]
  have hp : (shape ++ ((-1 : Int) :: rest)).filter (fun d => d != -1)
      = shape ++ rest := by
    rw [List.filter_append, filter_ne_neg_one hsh, List.filter_cons]
    simp [filter_ne_neg_one hrest]
  rw [hp]
  have hbpos : 0 < numel (shape ++ rest) := by
    rw [numel_append]
    exact mul_pos (numel_pos hsh) (numel_pos hrest)
  have hdiv : numel (rt0 :: (rest ++ shape)) / numel (shape ++ rest) = rt0 := by
    have e1 : numel (rt0 :: (rest ++ shape)) = rt0 * numel (shape ++ rest) := by
      rw [show numel (rt0 :: (rest ++ shape)) = rt0 * numel (rest ++ shape) from rfl,
        numel_append, numel_append]
      ring
    rw [e1]
    exact Int.mul_ediv_cancel rt0 hbpos.ne'
  rw [hdiv, List.map_append, map_resolve_id rt0 hsh, List.map_cons,
    if_pos rfl, map_resolve_id rt0 hrest]

/-- C6 witness: a model with batch shape `[-1, 2]`, sample shape `[3]` and
runtime leading dimension 5 yields sample shape `[3, 5, 2]`. -/
theorem sample_shape_dynamic_witness :
    sampleShapeResult
        ⟨DType.float32, DType.float32, [-1, 2], [-1, 2], DType.float32, false, [-1, 2]⟩
        [3] 5
      = [3, 5, 2] :=
  (sample_shape_dynamic
    ⟨DType.float32, DType.float32, [-1, 2], [-1, 2], DType.float32, false, [-1, 2]⟩
    [3] [2] 5 (by decide) (by decide) (by decide)).1

/-- C7: if both inputs are live tensors the dtype is taken from `low`'s
element type; otherwise the dtype defaults to `float32` unless an input is
a numpy float32/float64 buffer (`low` checked first, then `high`), and
after conversion both `low` and `high` are cast to the resolved dtype, so
on the raw-input path `low`, `high` and `self.dtype` all agree. -/
theorem construct_raw_dtype (d : Bool) (low high : PyValue)
    (hlow : isTensor low = false) (hhigh : isTensor high = false)
    (hok : checkTypeOk low = true) (hok2 : checkTypeOk high = true) :
    dtypeTriple (mkUniform d low high)
        = some (resolvedRawDtype low high, resolvedRawDtype low high,
                resolvedRawDtype low high)
      ∧ (∀ dta dtb : DType, ∀ sa sb : List Int,
          dtypeTriple
              (mkUniform d (PyValue.tensorV dta sa) (PyValue.tensorV dtb sb))
            = some (dta, dta, dtb)) := by
  constructor
  · have hc : (!d && (!(checkTypeOk low) || !(checkTypeOk high))) = false := by
      rw [hok, hok2]; simp
    have ht : (isTensor (coerceInt low) && isTensor (coerceInt high)) = false := by
      rw [isTensor_coerceInt, isTensor_coerceInt, hlow, hhigh]; rfl
    have hk : (checkTypeOk (coerceInt low) && checkTypeOk (coerceInt high)) = true := by
      rw [checkTypeOk_coerceInt, checkTypeOk_coerceInt, hok, hok2]; rfl
    simp only [mkUniform]
    rw [hc, if_neg Bool.false_ne_true, ht, if_neg Bool.false_ne_true,
      hk, if_pos rfl, resolvedRawDtype_coerceInt]
    by_cases hdt : resolvedRawDtype low high = DType.float32
    · rw [if_neg (not_not_intro hdt), dtypeTriple, hdt]
    · rw [if_pos hdt, dtypeTriple]
  · intro dta dtb sa sb
    have hc : (!d && (!(checkTypeOk (PyValue.tensorV dta sa))
        || !(checkTypeOk (PyValue.tensorV dtb sb)))) = false := by
      simp [checkTypeOk]
    simp only [mkUniform]
    rw [hc, if_neg Bool.false_ne_true]
    rfl

/-- C7 witness: a float scalar `low` with a float64 numpy `high` resolves
dtype float64, and low, high and self.dtype all agree after
construction. -/
theorem construct_raw_dtype_witness :
    dtypeTriple
        (mkUniform true (PyValue.pyfloat 3) (PyValue.ndarray DType.float64 [2]))
      = some (DType.float64, DType.float64, DType.float64) :=
  (construct_raw_dtype true (PyValue.pyfloat 3) (PyValue.ndarray DType.float64 [2])
    rfl rfl rfl rfl).1

/-- C8: `InvalidArgumentType` is raised by construction exactly when, in
checked (non-dynamic) mode, `low` or `high` has an unsupported
representation, and by `sample` exactly when, in checked mode, `shape` is
not a list or `seed` not an int; in dynamic mode the checks are skipped
and the error is never raised. -/
theorem invalid_argument_type_iff (d : Bool) (low high : PyValue)
    (m : UniformModel) (shapeArg seedArg : PyValue) (rt0 : Int) :
    (mkUniform d low high = Except.error UniformErr.invalidArgumentType
        ↔ d = false ∧ (checkTypeOk low = false ∨ checkTypeOk high = false))
      ∧ (sampleChecked d m shapeArg seedArg rt0
            = Except.error UniformErr.invalidArgumentType
        ↔ d = false ∧ (isPyList shapeArg = false ∨ isPyInt seedArg = false)) := by
  constructor
  · constructor
    · intro h
      by_cases hc : (!d && (!(checkTypeOk low) || !(checkTypeOk high))) = true
      · simpa [Bool.and_eq_true, Bool.or_eq_true, Bool.not_eq_true'] using hc
      · exfalso
        simp only [mkUniform] at h
        rw [if_neg hc] at h
        split at h
        · exact Except.noConfusion h
        · split at h
          · split at h
            · exact Except.noConfusion h
            · exact Except.noConfusion h
          · injection h with h2
            exact UniformErr.noConfusion h2
    · rintro ⟨hd, hor⟩
      subst hd
      have hc : (!false && (!(checkTypeOk low) || !(checkTypeOk high))) = true := by
        rcases hor with h | h <;> simp [h]
      simp only [mkUniform]
      rw [if_pos hc]
  · constructor
    · intro h
      by_cases hc : (!d && (!(isPyList shapeArg) || !(isPyInt seedArg))) = true
      · simpa [Bool.and_eq_true, Bool.or_eq_true, Bool.not_eq_true'] using hc
      · exfalso
        simp only [sampleChecked] at h
        rw [if_neg hc] at h
        exact Except.noConfusion h
    · rintro ⟨hd, hor⟩
      subst hd
      have hc : (!false && (!(isPyList shapeArg) || !(isPyInt seedArg))) = true := by
        rcases hor with h | h <;> simp [h]
      simp only [sampleChecked]
      rw [if_pos hc]

/-- C8 witness: in checked mode an unsupported `low` raises
`InvalidArgumentType` at construction, and a non-list `shape` raises it at
sampling. -/
theorem invalid_argument_type_iff_witness :
    mkUniform false PyValue.unsupported (PyValue.pyfloat 1)
        = Except.error UniformErr.invalidArgumentType
      ∧ sampleChecked false
          ⟨DType.float32, DType.float32, [1], [1], DType.float32, false, [1]⟩
          (PyValue.pyfloat 1) (PyValue.pyint 0) 0
        = Except.error UniformErr.invalidArgumentType :=
  ⟨((invalid_argument_type_iff false PyValue.unsupported (PyValue.pyfloat 1)
      ⟨DType.float32, DType.float32, [1], [1], DType.float32, false, [1]⟩
      (PyValue.pyfloat 1) (PyValue.pyint 0) 0).1).mpr ⟨rfl, Or.inl rfl⟩,
   ((invalid_argument_type_iff false PyValue.unsupported (PyValue.pyfloat 1)
      ⟨DType.float32, DType.float32, [1], [1], DType.float32, false, [1]⟩
      (PyValue.pyfloat 1) (PyValue.pyint 0) 0).2).mpr ⟨rfl, Or.inl rfl⟩⟩

/-- C10: on the both-tensors path no cast is applied — `low` and `high`
keep their element types and shapes exactly, and `self.dtype` is set from
`low` alone — so for tensor inputs with mismatched dtypes the invariant
`low.dtype == high.dtype == self.dtype` fails, as the float32/float64
instance shows. -/
theorem tensor_path_no_cast (d : Bool) (dta dtb : DType) (sa sb : List Int) :
    mkUniform d (PyValue.tensorV dta sa) (PyValue.tensorV dtb sb)
        = Except.ok { low_dtype := dta, high_dtype := dtb, low_shape := sa,
                      high_shape := sb, dtype := dta, all_arg_is_float := false,
                      batch_shape := sa }
      ∧ dtypeTriple (mkUniform true (PyValue.tensorV DType.float32 [1])
            (PyValue.tensorV DType.float64 [1]))
          = some (DType.float32, DType.float32, DType.float64) := by
  refine ⟨?_, rfl⟩
  have hc : (!d && (!(checkTypeOk (PyValue.tensorV dta sa))
      || !(checkTypeOk (PyValue.tensorV dtb sb)))) = false := by
    simp [checkTypeOk]
  simp only [mkUniform]
  rw [hc, if_neg Bool.false_ne_true]
  rfl

end PaddleUniform
